import Mathlib

/-!
Verification model of the force-graph component
(src/src/components/force-graph.js).  The component logic is embedded
shallowly: the scale-to-fit routine, the force-strength configuration,
the running-flag lifecycle, the per-frame tick schedule, the per-node
placeholder / rich-content lifecycle, the click handler and the
configuration accessor parsing are translated into executable Lean
functions, and the stated properties are settled about them.
-/

namespace ForceGraph

/-!
JavaScript numbers for the scale-to-fit computation.  The bounding box
coordinates and the configured width and height are exact values, so
the only IEEE special values that can arise inside scaleToFit are the
results of dividing by a zero extent.  We therefore extend the
rationals with the three special values and give division, Math.min
and multiplication their JavaScript semantics on them.
-/

/-- A JavaScript number: a finite (exact) value, positive infinity,
negative infinity, or NaN. -/
inductive JNum where
  | fin (q : ℚ)
  | pinf
  | ninf
  | nan
deriving DecidableEq, Repr

/-- JavaScript division of two finite numbers: division by zero yields
a signed infinity (or NaN for 0 / 0), otherwise the exact quotient. -/
def jdiv (a b : ℚ) : JNum :=
  if b ≠ 0 then .fin (a / b)
  else if 0 < a then .pinf
  else if a < 0 then .ninf
  else .nan

/-- JavaScript Math.min on two numbers: NaN is contagious, negative
infinity is smallest, positive infinity is largest. -/
def jmin : JNum → JNum → JNum
  | .nan, _ => .nan
  | _, .nan => .nan
  | .ninf, _ => .ninf
  | _, .ninf => .ninf
  | .pinf, b => b
  | a, .pinf => a
  | .fin a, .fin b => .fin (min a b)

/-- JavaScript multiplication: NaN is contagious, an infinity times
zero is NaN, otherwise signs combine as usual. -/
def jmul : JNum → JNum → JNum
  | .nan, _ => .nan
  | _, .nan => .nan
  | .fin a, .fin b => .fin (a * b)
  | .pinf, .pinf => .pinf
  | .pinf, .ninf => .ninf
  | .ninf, .pinf => .ninf
  | .ninf, .ninf => .pinf
  | .pinf, .fin b => if 0 < b then .pinf else if b < 0 then .ninf else .nan
  | .fin a, .pinf => if 0 < a then .pinf else if a < 0 then .ninf else .nan
  | .ninf, .fin b => if 0 < b then .ninf else if b < 0 then .pinf else .nan
  | .fin a, .ninf => if 0 < a then .ninf else if a < 0 then .pinf else .nan

/-- The bounding box returned by getGraphBbox: pairs of low and high
coordinates on the x, y and z axes. -/
structure Bbox where
  xlo : ℚ
  xhi : ℚ
  ylo : ℚ
  yhi : ℚ
  zlo : ℚ
  zhi : ℚ
deriving DecidableEq, Repr

/-- The scale vector of the forceGraph Object3D. -/
structure JVec3 where
  x : JNum
  y : JNum
  z : JNum
deriving DecidableEq, Repr

/-- Embedding of scaleToFit (force-graph.js lines 220-238).  When the
bounding box is absent nothing happens; otherwise sizeH is the y
extent, sizeW the larger of the x and z extents, the two ratios
height / sizeH and width / sizeW are formed, their minimum is
multiplied by the current x scale, and the result is written uniformly
to all three scale axes. -/
def scaleToFit (height width : ℚ) (bbox : Option Bbox) (scale : JVec3) : JVec3 :=
  match bbox with
  | none => scale
  | some b =>
    let sizeH : ℚ := b.yhi - b.ylo
    let sizeW : ℚ := max (b.xhi - b.xlo) (b.zhi - b.zlo)
    let ratioH := jdiv height sizeH
    let ratioW := jdiv width sizeW
    let scl := jmul (jmin ratioH ratioW) scale.x
    ⟨scl, scl, scl⟩

/-! Force configuration (claim C1). -/

/-- The strengths currently installed on the four named forces of the
underlying d3 simulation. -/
structure ForceStrengths where
  charge : ℚ
  x : ℚ
  y : ℚ
  z : ℚ
deriving DecidableEq, Repr

/-- Modelled from the d3-force-3d external interface used at
force-graph.js lines 284-286: d3ForceX() (and likewise Y and Z)
creates an axis force whose strength defaults to 0.1 and whose target
coordinate defaults to 0. -/
def d3DefaultAxisStrength : ℚ := 1 / 10

/-- Embedding of init lines 284-286: the x, y and z forces are
replaced by freshly constructed default d3 axis forces; the charge
force of the simulation is left as installed by the engine. -/
def initAxisForces (f : ForceStrengths) : ForceStrengths :=
  { f with
      x := d3DefaultAxisStrength,
      y := d3DefaultAxisStrength,
      z := d3DefaultAxisStrength }

/-- The force-related component configuration values. -/
structure ForceConfig where
  chargeForce : ℚ
  xForce : ℚ
  yForce : ℚ
  zForce : ℚ
deriving DecidableEq, Repr

/-- Embedding of update lines 399-411: each configured strength is
forwarded to the corresponding d3 force only when it is nonzero; a
configured value of zero leaves the currently installed strength of
that force untouched. -/
def updateForces (d : ForceConfig) (f : ForceStrengths) : ForceStrengths :=
  { charge := if d.chargeForce ≠ 0 then d.chargeForce else f.charge,
    x := if d.xForce ≠ 0 then d.xForce else f.x,
    y := if d.yForce ≠ 0 then d.yForce else f.y,
    z := if d.zForce ≠ 0 then d.zForce else f.z }

/-- Modelled from the d3-force-3d external interface: one application
of an axis force adds (target - pos) * strength * alpha to the
velocity of a node along that axis, with target 0 by default.  This is
the net impulse one simulation step applies from that force along its
axis to a node at coordinate pos. -/
def axisForceImpulse (strength alpha pos : ℚ) : ℚ :=
  (0 - pos) * strength * alpha

/-! Running-flag lifecycle (claims C4 and C5). -/

/-- The events that touch the running flag of the component. -/
inductive FGEvent where
  | compInit
  | finishUpdate
  | engineTick
  | engineStop
  | reheat
deriving DecidableEq, Repr

/-- Embedding of the handlers that read or write this.running:
init line 249 sets it false; the onFinishUpdate callback line 263 sets
it true; the onEngineStop callback line 265 sets it false; the
onEngineTick callback lines 270-275 has its body commented out and
changes nothing; d3ReheatSimulation lines 210-213 only forwards to the
inner force graph and does not touch the flag. -/
def applyEvent (running : Bool) : FGEvent → Bool
  | .compInit => false
  | .finishUpdate => true
  | .engineTick => running
  | .engineStop => false
  | .reheat => running

/-- The effects of the onEngineStop callback, lines 264-268. -/
structure EngineStopEffect where
  running : Bool
  invokedScaleToFit : Bool
  emittedUpdatePortals : Bool
deriving DecidableEq, Repr

/-- Embedding of the onEngineStop callback: it clears the running
flag, invokes scaleToFit once and emits the updatePortals event. -/
def onEngineStop : EngineStopEffect :=
  { running := false, invokedScaleToFit := true, emittedUpdatePortals := true }

/-! The per-frame tick (claims C5 and C10). -/

/-- The component state read by one invocation of tick. -/
structure TickInput where
  isInteractive : Bool
  isDraggable : Bool
  isDragging : Bool
  isNetworked : Bool
  hasNetEntity : Bool
  hasStateSync : Bool
  stateSyncChanged : Bool
  running : Bool
deriving DecidableEq, Repr

/-- Which phases of one frame actually executed. -/
structure TickEffects where
  interactionHandled : Bool
  returnedEarly : Bool
  clearedChangedFlag : Bool
  steppedSimulation : Bool
  recomputedBillboards : Bool
  tickedNodeContent : Bool
  flaggedMatrices : Bool
  invokedScaleToFit : Bool
deriving DecidableEq, Repr

/-- Embedding of tick (lines 503-632): the interaction phase runs
first when isInteractive; when isNetworked and the networked entity or
the state-sync object is missing, tick returns early (lines 575-579)
before the simulation step (tickFrame, line 597), the billboard
recomputation (lines 603-606), the per-node content loop (lines
608-624), the matrix flagging (lines 625-627) and the running-guarded
scaleToFit (lines 629-631). -/
def tick (i : TickInput) : TickEffects :=
  let early := i.isNetworked && (!i.hasNetEntity || !i.hasStateSync)
  { interactionHandled := i.isInteractive,
    returnedEarly := early,
    clearedChangedFlag := !early && i.isNetworked && i.stateSyncChanged,
    steppedSimulation := !early,
    recomputedBillboards := !early,
    tickedNodeContent := !early,
    flaggedMatrices := !early,
    invokedScaleToFit := !early && i.running }

/-! Per-node content lifecycle (claim C6). -/

/-- The per-node content state: the placeholder box reference (with
its z rotation when present), whether the html generator exists,
whether the rich web layer has been attached, and how many refresh
ticks have been forwarded to the generator. -/
structure GraphNode where
  boxRotZ : Option ℚ
  hasHtmlGenerator : Bool
  richAttached : Bool
  genTicks : ℕ
deriving DecidableEq, Repr

/-- Embedding of makeHTMLText (lines 324-361): the container is
returned synchronously with the placeholder box added and the html
generator created; the rich web layer is not yet attached. -/
def makeHTMLText : GraphNode :=
  { boxRotZ := some 0, hasHtmlGenerator := true,
    richAttached := false, genTicks := 0 }

/-- Embedding of the waitForReady completion callback (lines 353-358):
the rich web layer is added, the box is removed and its reference is
cleared. -/
def onGeneratorReady (n : GraphNode) : GraphNode :=
  { n with richAttached := true, boxRotZ := none }

/-- Embedding of the per-node work inside tick (lines 608-624): while
the box reference is non-null its z rotation is advanced by 0.03, and
whenever the html generator exists a refresh tick is forwarded to it
(the guard relating it to the box, lines 621-623, is commented out). -/
def nodeFrameTick (n : GraphNode) : GraphNode :=
  let spun := match n.boxRotZ with
    | some r => { n with boxRotZ := some (r + 3 / 100) }
    | none => n
  if spun.hasHtmlGenerator then { spun with genTicks := spun.genTicks + 1 } else spun

/-! The click handler (claim C7). -/

/-- The click and drag state of the component (lines 298-299). -/
structure ClickState where
  clickIntersection : Option ℕ
  clickEvent : Option ℕ
deriving DecidableEq, Repr

/-- The outcome of one invocation of the clicked handler. -/
structure ClickResult where
  state : ClickState
  warned : Bool
deriving DecidableEq, Repr

/-- Embedding of clicked (lines 428-443): the fine-grained
intersection and the event are stored; when the intersection is absent
a console warning is logged and the handler returns (the code after
the guard is commented out, so there is no further action in either
case, and the handler is total: no exception escapes). -/
def clicked (s : ClickState) (evt : ℕ) (hit : Option ℕ) : ClickResult :=
  let s := { s with clickIntersection := hit, clickEvent := some evt }
  match hit with
  | none => { state := s, warned := true }
  | some _ => { state := s, warned := false }

/-! Configuration accessor parsing (claim C9). -/

/-- A JavaScript value in the fragment the accessor parser touches. -/
inductive JSVal where
  | str (s : String)
  | num (q : ℚ)
  | fn (id : ℕ)
  | null
deriving DecidableEq, Repr

/-- Truthiness of a value of this fragment. -/
def truthy : JSVal → Bool
  | .str s => !s.isEmpty
  | .num q => q != 0
  | .fn _ => true
  | .null => false

/-- Embedding of parseFn (lines 49-57).  The JavaScript eval builtin
is external and is modelled as an oracle ev returning some v when
evaluating the parenthesised property succeeds with value v, and none
when it throws; the catch branch then falls through to return null.
A property that is already a function is returned unchanged. -/
def parseFn (ev : JSVal → Option JSVal) (prop : JSVal) : JSVal :=
  match prop with
  | .fn i => .fn i
  | p =>
    match ev p with
    | some v => v
    | none => .null

/-- Embedding of parseAccessor (lines 59-63).  The JavaScript
parseFloat builtin is external and is modelled as an oracle pf
returning some q when parseFloat of the property is the non-NaN
number q, and none when it is NaN.  Numbers are tried first, then a
truthy parseFn result, and otherwise the raw property is returned. -/
def parseAccessor (pf : JSVal → Option ℚ) (ev : JSVal → Option JSVal)
    (prop : JSVal) : JSVal :=
  match pf prop with
  | some q => .num q
  | none => if truthy (parseFn ev prop) then parseFn ev prop else prop

/-- A concrete parseFloat oracle used to evaluate the accessor parser
on sample inputs: only the string "3.5" parses, to the number 3.5. -/
def pfSample : JSVal → Option ℚ
  | .str s => if s = "3.5" then some (7 / 2) else none
  | .num q => some q
  | _ => none

/-- A concrete eval oracle used to evaluate the accessor parser on
sample inputs: one string evaluates to a function, every other input
throws. -/
def evSample : JSVal → Option JSVal
  | .str s => if s = "node => node.group" then some (.fn 0) else none
  | _ => none

/-! Theorems. -/

/-- C1: counterexample.  After init installs the default d3 axis
forces and an update configures every force strength to exactly zero,
the x force keeps the default strength 0.1, and one simulation step
applies a nonzero impulse along x to a node at x = 1 (alpha 1): a zero
configured strength does not disable the contribution of that force. -/
theorem c1_zero_strength_cex :
    ¬ (axisForceImpulse
        (updateForces ⟨0, 0, 0, 0⟩ (initAxisForces ⟨-30, 0, 0, 0⟩)).x 1 1 = 0) := by
  norm_num [axisForceImpulse, updateForces, initAxisForces, d3DefaultAxisStrength]

/-- C1 (amended): configuring a force strength to exactly zero skips
the strength update and leaves the currently installed strength of
that force in effect (for a freshly initialised axis force, the d3
default 0.1); only a nonzero configured strength replaces the
installed one, so one step then applies the impulse of the retained
strength, not zero. -/
theorem c1_zero_strength_keeps_installed (d : ForceConfig) (f : ForceStrengths) :
    (d.xForce = 0 → (updateForces d f).x = f.x) ∧
    (d.xForce ≠ 0 → (updateForces d f).x = d.xForce) ∧
    (d.yForce = 0 → (updateForces d f).y = f.y) ∧
    (d.yForce ≠ 0 → (updateForces d f).y = d.yForce) ∧
    (d.zForce = 0 → (updateForces d f).z = f.z) ∧
    (d.zForce ≠ 0 → (updateForces d f).z = d.zForce) ∧
    (d.chargeForce = 0 → (updateForces d f).charge = f.charge) ∧
    (d.chargeForce ≠ 0 → (updateForces d f).charge = d.chargeForce) ∧
    (initAxisForces f).x = d3DefaultAxisStrength := by
  refine ⟨fun h => ?_, fun h => ?_, fun h => ?_, fun h => ?_, fun h => ?_,
    fun h => ?_, fun h => ?_, fun h => ?_, rfl⟩ <;>
    simp [updateForces, h]

/-- C1: witness for the amended theorem at a concrete configuration
(xForce 0, yForce 2) and concrete installed strengths. -/
theorem c1_zero_strength_keeps_installed_witness :
    (updateForces ⟨5, 0, 2, 0⟩ ⟨-30, 1 / 10, 1 / 10, 1 / 10⟩).x = 1 / 10 ∧
    (updateForces ⟨5, 0, 2, 0⟩ ⟨-30, 1 / 10, 1 / 10, 1 / 10⟩).y = 2 :=
  ⟨(c1_zero_strength_keeps_installed ⟨5, 0, 2, 0⟩ ⟨-30, 1 / 10, 1 / 10, 1 / 10⟩).1 rfl,
   (c1_zero_strength_keeps_installed ⟨5, 0, 2, 0⟩ ⟨-30, 1 / 10, 1 / 10, 1 / 10⟩).2.2.2.1
     (by decide)⟩

/-- C2: counterexample.  With target width and height 1, a fixed
bounding box of extent 2 on every axis and initial scale 1, one
invocation of scaleToFit yields scale 1/2 but a second invocation with
the unchanged bounding box yields 1/4: the routine compounds relative
factors and is not idempotent. -/
theorem c2_not_idempotent_cex :
    ¬ (scaleToFit 1 1 (some ⟨0, 2, 0, 2, 0, 2⟩)
        (scaleToFit 1 1 (some ⟨0, 2, 0, 2, 0, 2⟩) ⟨.fin 1, .fin 1, .fin 1⟩)
       = scaleToFit 1 1 (some ⟨0, 2, 0, 2, 0, 2⟩) ⟨.fin 1, .fin 1, .fin 1⟩) := by
  norm_num [scaleToFit, jdiv, jmin, jmul]

/-- C2 (amended): scaleToFit multiplies the current scale by the fit
factor computed from the bounding box, so with an unchanged bounding
box whose fit factor is the finite m and a finite current scale σ, one
invocation leaves the uniform scale m * σ and a second invocation
leaves m * (m * σ): consecutive invocations compound the factor
instead of reproducing the same absolute scale (they agree only when
the factor is a fixed point, e.g. m = 1). -/
theorem c2_compounds (h w : ℚ) (b : Bbox) (s : JVec3) (m σ : ℚ)
    (hm : jmin (jdiv h (b.yhi - b.ylo)) (jdiv w (max (b.xhi - b.xlo) (b.zhi - b.zlo)))
      = .fin m)
    (hs : s.x = .fin σ) :
    scaleToFit h w (some b) s = ⟨.fin (m * σ), .fin (m * σ), .fin (m * σ)⟩ ∧
    scaleToFit h w (some b) (scaleToFit h w (some b) s)
      = ⟨.fin (m * (m * σ)), .fin (m * (m * σ)), .fin (m * (m * σ))⟩ := by
  constructor <;> simp [scaleToFit, hm, hs, jmul]

/-- C2: witness for the amended theorem at the concrete bounding box
of extent 2 on every axis, targets 1 and scale 1 (fit factor 1/2). -/
theorem c2_compounds_witness :
    scaleToFit 1 1 (some ⟨0, 2, 0, 2, 0, 2⟩) ⟨.fin 1, .fin 1, .fin 1⟩
      = ⟨.fin (1 / 2 * 1), .fin (1 / 2 * 1), .fin (1 / 2 * 1)⟩ ∧
    scaleToFit 1 1 (some ⟨0, 2, 0, 2, 0, 2⟩)
        (scaleToFit 1 1 (some ⟨0, 2, 0, 2, 0, 2⟩) ⟨.fin 1, .fin 1, .fin 1⟩)
      = ⟨.fin (1 / 2 * (1 / 2 * 1)), .fin (1 / 2 * (1 / 2 * 1)),
         .fin (1 / 2 * (1 / 2 * 1))⟩ :=
  c2_compounds 1 1 ⟨0, 2, 0, 2, 0, 2⟩ ⟨.fin 1, .fin 1, .fin 1⟩ (1 / 2) 1
    (by norm_num [jdiv, jmin]) rfl

/-- C3: counterexample.  For the bounding box with y extent 0, x
extent 2 and z extent 1 (targets 1, scale 1), scaleToFit does not skip:
the divisor of the vertical ratio is the zero extent (an IEEE division
by zero yielding infinity) and the scale is reassigned to 1/2 instead
of being left at 1. -/
theorem c3_zero_extent_cex :
    ¬ (scaleToFit 1 1 (some ⟨0, 2, 0, 0, 0, 1⟩) ⟨.fin 1, .fin 1, .fin 1⟩
       = ⟨.fin 1, .fin 1, .fin 1⟩) := by
  norm_num [scaleToFit, jdiv, jmin, jmul]

/-- C3 (amended): scaleToFit skips only when the bounding box itself
is absent.  With a zero vertical extent (and positive target height),
the vertical ratio is the IEEE infinity resulting from division by
zero, and when the horizontal extent is positive the scale is still
reassigned, using the horizontal ratio alone. -/
theorem c3_guard_only_bbox (h w : ℚ) (s : JVec3) (b : Bbox)
    (hy : b.yhi - b.ylo = 0) (hh : 0 < h)
    (hext : 0 < max (b.xhi - b.xlo) (b.zhi - b.zlo)) :
    scaleToFit h w none s = s ∧
    jdiv h (b.yhi - b.ylo) = JNum.pinf ∧
    scaleToFit h w (some b) s =
      ⟨jmul (.fin (w / max (b.xhi - b.xlo) (b.zhi - b.zlo))) s.x,
       jmul (.fin (w / max (b.xhi - b.xlo) (b.zhi - b.zlo))) s.x,
       jmul (.fin (w / max (b.xhi - b.xlo) (b.zhi - b.zlo))) s.x⟩ := by
  have hdy : jdiv h (b.yhi - b.ylo) = JNum.pinf := by
    simp [jdiv, hy, hh]
  have hdw : jdiv w (max (b.xhi - b.xlo) (b.zhi - b.zlo))
      = .fin (w / max (b.xhi - b.xlo) (b.zhi - b.zlo)) := by
    simp [jdiv, hext.ne']
  refine ⟨rfl, hdy, ?_⟩
  simp [scaleToFit, hdy, hdw, jmin]

/-- C3: witness for the amended theorem at the concrete degenerate
bounding box with y extent 0, x extent 2 and z extent 1. -/
theorem c3_guard_only_bbox_witness :
    scaleToFit 1 1 none ⟨.fin 1, .fin 1, .fin 1⟩ = ⟨.fin 1, .fin 1, .fin 1⟩ ∧
    jdiv 1 ((0 : ℚ) - 0) = JNum.pinf ∧
    scaleToFit 1 1 (some ⟨0, 2, 0, 0, 0, 1⟩) ⟨.fin 1, .fin 1, .fin 1⟩ =
      ⟨jmul (.fin (1 / max ((2 : ℚ) - 0) ((1 : ℚ) - 0))) (JNum.fin 1),
       jmul (.fin (1 / max ((2 : ℚ) - 0) ((1 : ℚ) - 0))) (JNum.fin 1),
       jmul (.fin (1 / max ((2 : ℚ) - 0) ((1 : ℚ) - 0))) (JNum.fin 1)⟩ :=
  c3_guard_only_bbox 1 1 ⟨.fin 1, .fin 1, .fin 1⟩ ⟨0, 2, 0, 0, 0, 1⟩
    (by norm_num) (by norm_num) (by norm_num)

/-- C4: counterexample.  Calling the reheat operation while the
component is stopped (running = false) does not transition the flag
back to true: d3ReheatSimulation only forwards to the inner force
graph and leaves this.running untouched. -/
theorem c4_reheat_cex :
    ¬ (applyEvent false FGEvent.reheat = true) := by
  decide

/-- C4 (amended): the running flag becomes true only through the
onFinishUpdate callback (graph build); init and engine stop clear it,
and the engine tick and reheat operations leave it unchanged — so a
reheat while stopped leaves the flag false. -/
theorem c4_running_transitions (r : Bool) (e : FGEvent) :
    applyEvent r e = true ↔
      (e = .finishUpdate ∨ (r = true ∧ (e = .engineTick ∨ e = .reheat))) := by
  cases r <;> cases e <;> simp [applyEvent]

/-- C5: counterexample.  A frame tick taken while the simulation is
still running (running = true, before convergence) and while a drag is
in progress (isDragging = true, non-networked interactive component)
invokes scaleToFit: the fitter runs on every such frame, not only
after convergence and not outside drags. -/
theorem c5_rescale_while_running_cex :
    (tick ⟨true, true, true, false, false, false, false, true⟩).invokedScaleToFit
      = true := by
  decide

/-- C5 (amended): the frame tick invokes scaleToFit exactly when the
running flag is set and the networked early return did not fire —
regardless of any drag in progress — so it runs on every frame of the
initial layout; scaleToFit is additionally invoked once by the
onEngineStop callback at convergence (and, since running stays false
afterwards, later frames do not rescale). -/
theorem c5_rescale_iff_running (i : TickInput) :
    ((tick i).invokedScaleToFit = true ↔
      ((tick i).returnedEarly = false ∧ i.running = true)) ∧
    onEngineStop.invokedScaleToFit = true := by
  obtain ⟨ii, idr, idg, inet, ine, iss, isc, ir⟩ := i
  refine ⟨?_, rfl⟩
  cases inet <;> cases ine <;> cases iss <;> cases ir <;> simp [tick]

/-- C6: counterexample.  One frame tick on a node freshly produced by
makeHTMLText both spins the still-present placeholder box and forwards
a refresh tick to the rich visual generator: the rich-content refresh
tick runs before the placeholder reference is cleared, so the per-frame
behavior is not exclusive. -/
theorem c6_tick_before_transition_cex :
    ¬ ((nodeFrameTick makeHTMLText).boxRotZ = none ∨
       (nodeFrameTick makeHTMLText).genTicks = 0) := by
  decide

/-- C6 (amended): per frame, the placeholder (while present) is spun
by 0.03 and a refresh tick is forwarded to the generator whenever the
generator exists — even while the placeholder is still present; the
placeholder clearing itself happens at most once: the completion
callback clears the reference, frame ticks never recreate it, and a
node starts with the placeholder present and the generator created. -/
theorem c6_tick_unconditional (n : GraphNode) (r : ℚ) :
    ((nodeFrameTick n).genTicks = n.genTicks + 1 ↔ n.hasHtmlGenerator = true) ∧
    (n.boxRotZ = some r → (nodeFrameTick n).boxRotZ = some (r + 3 / 100)) ∧
    (n.boxRotZ = none → (nodeFrameTick n).boxRotZ = none) ∧
    (onGeneratorReady n).boxRotZ = none ∧
    (onGeneratorReady n).richAttached = true ∧
    makeHTMLText.boxRotZ = some 0 ∧
    makeHTMLText.hasHtmlGenerator = true := by
  obtain ⟨bz, hg, ra, gt⟩ := n
  cases bz <;> cases hg <;>
    simp [nodeFrameTick, onGeneratorReady, makeHTMLText]

/-- C6: witness for the amended theorem at a concrete node that still
has its placeholder (rotation 0) and its generator. -/
theorem c6_tick_unconditional_witness :
    (nodeFrameTick ⟨some 0, true, false, 0⟩).genTicks = 0 + 1 ∧
    (nodeFrameTick ⟨some 0, true, false, 0⟩).boxRotZ = some ((0 : ℚ) + 3 / 100) :=
  ⟨(c6_tick_unconditional ⟨some 0, true, false, 0⟩ 0).1.mpr rfl,
   (c6_tick_unconditional ⟨some 0, true, false, 0⟩ 0).2.1 rfl⟩

/-- C7: a click whose fine-grained ray intersection resolves to
nothing is non-fatal: the handler (a total function, so no exception)
logs the warning, records no click target (the stored intersection is
none) and performs no further action. -/
theorem c7_click_no_hit (s : ClickState) (evt : ℕ) (hit : Option ℕ)
    (h : hit = none) :
    (clicked s evt hit).warned = true ∧
    (clicked s evt hit).state.clickIntersection = none := by
  subst h
  simp [clicked]

/-- C7: witness at a concrete prior state, event and empty hit. -/
theorem c7_click_no_hit_witness :
    (clicked ⟨some 7, some 3⟩ 4 none).warned = true ∧
    (clicked ⟨some 7, some 3⟩ 4 none).state.clickIntersection = none :=
  c7_click_no_hit ⟨some 7, some 3⟩ 4 none rfl

/-- C8: for a non-degenerate bounding box (positive vertical extent
and positive larger horizontal extent) and a finite current x scale,
scaleToFit multiplies the current scale by
min(height / sizeH, width / sizeW) — sizeH the y extent, sizeW the
larger of the x and z extents — and writes the result uniformly to all
three scale axes. -/
theorem c8_scale_formula (h w : ℚ) (b : Bbox) (σ : ℚ) (sy sz : JNum)
    (hH : 0 < b.yhi - b.ylo) (hW : 0 < max (b.xhi - b.xlo) (b.zhi - b.zlo)) :
    scaleToFit h w (some b) ⟨.fin σ, sy, sz⟩ =
      ⟨.fin (min (h / (b.yhi - b.ylo)) (w / max (b.xhi - b.xlo) (b.zhi - b.zlo)) * σ),
       .fin (min (h / (b.yhi - b.ylo)) (w / max (b.xhi - b.xlo) (b.zhi - b.zlo)) * σ),
       .fin (min (h / (b.yhi - b.ylo)) (w / max (b.xhi - b.xlo) (b.zhi - b.zlo)) * σ)⟩ := by
  have hdH : jdiv h (b.yhi - b.ylo) = .fin (h / (b.yhi - b.ylo)) := by
    simp [jdiv, hH.ne']
  have hdW : jdiv w (max (b.xhi - b.xlo) (b.zhi - b.zlo))
      = .fin (w / max (b.xhi - b.xlo) (b.zhi - b.zlo)) := by
    simp [jdiv, hW.ne']
  simp [scaleToFit, hdH, hdW, jmin, jmul]

/-- C8: witness at the concrete bounding box with x extent 2, y
extent 4, z extent 1, targets height 1 and width 1 and scale 1:
sizeH = 4, sizeW = 2, and the scale becomes min(1/4, 1/2) = 1/4 on all
three axes. -/
theorem c8_scale_formula_witness :
    scaleToFit 1 1 (some ⟨0, 2, 0, 4, 0, 1⟩) ⟨.fin 1, .fin 1, .fin 1⟩ =
      ⟨.fin (min ((1 : ℚ) / ((4 : ℚ) - 0)) ((1 : ℚ) / max ((2 : ℚ) - 0) ((1 : ℚ) - 0)) * 1),
       .fin (min ((1 : ℚ) / ((4 : ℚ) - 0)) ((1 : ℚ) / max ((2 : ℚ) - 0) ((1 : ℚ) - 0)) * 1),
       .fin (min ((1 : ℚ) / ((4 : ℚ) - 0)) ((1 : ℚ) / max ((2 : ℚ) - 0) ((1 : ℚ) - 0)) * 1)⟩ :=
  c8_scale_formula 1 1 ⟨0, 2, 0, 4, 0, 1⟩ 1 (.fin 1) (.fin 1)
    (by norm_num) (by norm_num)

/-- C9: behavior of the accessor parser on a string property: when
parseFloat yields a number the parser returns that number; when
parseFloat yields NaN and eval produces a function the parser returns
that function; and when parseFloat yields NaN and eval throws
(malformed accessor expression) the parser falls back to the raw
string itself — the parser is a total function, so no error is
raised. -/
theorem c9_parse_accessor (pf : JSVal → Option ℚ) (ev : JSVal → Option JSVal)
    (s : String) (q : ℚ) (i : ℕ) :
    (pf (.str s) = some q → parseAccessor pf ev (.str s) = .num q) ∧
    (pf (.str s) = none → ev (.str s) = some (.fn i) →
      parseAccessor pf ev (.str s) = .fn i) ∧
    (pf (.str s) = none → ev (.str s) = none →
      parseAccessor pf ev (.str s) = .str s) := by
  refine ⟨fun h1 => ?_, fun h1 h2 => ?_, fun h1 h2 => ?_⟩
  · simp [parseAccessor, parseFn, truthy, h1]
  · simp [parseAccessor, parseFn, truthy, h1, h2]
  · simp [parseAccessor, parseFn, truthy, h1, h2]

/-- C9: witness using the concrete sample oracles: the numeric string
parses to 3.5, the accessor-expression string yields the function, and
the malformed plain string falls back to itself. -/
theorem c9_parse_accessor_witness :
    parseAccessor pfSample evSample (.str "3.5") = .num (7 / 2) ∧
    parseAccessor pfSample evSample (.str "node => node.group") = .fn 0 ∧
    parseAccessor pfSample evSample (.str "group") = .str "group" :=
  ⟨(c9_parse_accessor pfSample evSample "3.5" (7 / 2) 0).1 (by simp [pfSample]),
   (c9_parse_accessor pfSample evSample "node => node.group" (7 / 2) 0).2.1
     (by simp [pfSample]) (by simp [evSample]),
   (c9_parse_accessor pfSample evSample "group" (7 / 2) 0).2.2
     (by simp [pfSample]) (by simp [evSample])⟩

/-- C10: when the component is networked and its networked entity or
state-sync object is not yet established, a frame tick runs the
interaction phase (when interactive) and then returns early: no
simulation step, no billboard recomputation, no per-node content tick,
no matrix flagging and no rescaling happen in that frame. -/
theorem c10_networked_early_return (i : TickInput)
    (hn : i.isNetworked = true)
    (hm : i.hasNetEntity = false ∨ i.hasStateSync = false) :
    (tick i).interactionHandled = i.isInteractive ∧
    (tick i).returnedEarly = true ∧
    (tick i).steppedSimulation = false ∧
    (tick i).recomputedBillboards = false ∧
    (tick i).tickedNodeContent = false ∧
    (tick i).flaggedMatrices = false ∧
    (tick i).invokedScaleToFit = false := by
  rcases hm with h | h <;> simp [tick, hn, h]

/-- C10: witness at a concrete networked input whose state-sync object
is missing. -/
theorem c10_networked_early_return_witness :
    (tick ⟨true, true, false, true, true, false, false, true⟩).interactionHandled
        = true ∧
    (tick ⟨true, true, false, true, true, false, false, true⟩).returnedEarly = true ∧
    (tick ⟨true, true, false, true, true, false, false, true⟩).steppedSimulation
        = false ∧
    (tick ⟨true, true, false, true, true, false, false, true⟩).recomputedBillboards
        = false ∧
    (tick ⟨true, true, false, true, true, false, false, true⟩).tickedNodeContent
        = false ∧
    (tick ⟨true, true, false, true, true, false, false, true⟩).flaggedMatrices
        = false ∧
    (tick ⟨true, true, false, true, true, false, false, true⟩).invokedScaleToFit
        = false :=
  c10_networked_early_return ⟨true, true, false, true, true, false, false, true⟩
    rfl (Or.inr rfl)

end ForceGraph
